import Mathlib

/-!
Shallow embedding of the Talabat scraper service (`src/server.mjs`).

The extraction pipeline lives in the `page.evaluate` callback of the
`GET /search` handler (lines 115-190 of `server.mjs`).  We embed:

* the text extractors: the regular-expression matches over a card's
  `textContent` that recover discount percentage, delivery fee, ETA and
  rating (lines 134-169);
* the card locator: `document.querySelectorAll` with the comma-joined
  selector list of line 117;
* the record builder and its accumulation loop with the `maxItems * 2`
  scan bound, the name/fee skip conditions and the hard `break`
  (lines 119-187);
* the delivery-fee filter condition of line 152 (the spec's Result
  Filter component), restated as a function over record lists;
* the `max` query-parameter handling (`parseInt`, line 190, with the
  default of line 63);
* the outcome handling of the `Promise.race` between the scrape and the
  28s timeout, including the catch-block browser cleanup
  (lines 74-76 and 217-235).

JavaScript numbers are modelled as rationals (`ℚ`); the claims under
study never exercise binary floating-point rounding.  `parseFloat`
applied to a capture of `[\d.]+` can yield `NaN` only when the capture
is all dots; we conflate that `NaN` with `null` (`Option.none`), which
is invisible to every claim below.  JavaScript `\s` and `String.trim`
whitespace classes are modelled by the ASCII whitespace characters; the
claims never exercise exotic Unicode spaces.
-/

namespace Talabat

/-- ASCII whitespace, modelling the characters of the JS `\s` class that
occur in practice (space, tab, line feed, carriage return, vertical tab,
form feed). -/
def isWs (c : Char) : Bool :=
  c = ' ' || c = '\t' || c = '\n' || c = '\r' || c = '\x0b' || c = '\x0c'

/-- Decimal digit test, the JS `\d` class. -/
def isDigitCh (c : Char) : Bool :=
  '0' ≤ c && c ≤ '9'

/-- Case-insensitive character comparison, for the `i` regex flag. -/
def lowEq (a b : Char) : Bool :=
  a.toLower = b.toLower

/-- Match a literal word case-insensitively at the head of the input;
returns the remaining input on success. -/
def matchLit : List Char → List Char → Option (List Char)
  | [], cs => some cs
  | _ :: _, [] => none
  | l :: ls, c :: cs => if lowEq c l then matchLit ls cs else none

/-- Greedily drop leading whitespace: the regex `\s*`. -/
def skipWs : List Char → List Char
  | [] => []
  | c :: cs => if isWs c then skipWs cs else c :: cs

/-- Greedily take the maximal leading run of characters satisfying `p`
(the regex `X+`/`X*` for a character class `X`), returning the run and
the rest. -/
def takeRun (p : Char → Bool) : List Char → List Char × List Char
  | [] => ([], [])
  | c :: cs =>
    if p c then
      let r := takeRun p cs
      (c :: r.1, r.2)
    else ([], c :: cs)

/-- Value of a string of decimal digits, the JS `parseInt` applied to a
`(\d+)` capture. -/
def digitsToNat (ds : List Char) : Nat :=
  ds.foldl (fun n c => 10 * n + (c.toNat - 48)) 0

/-- Leftmost-match regex search: try the position matcher `f` at every
position from the left, as `String.prototype.match` does. -/
def scanFirst (f : List Char → Option α) : List Char → Option α
  | [] => none
  | c :: cs =>
    match f (c :: cs) with
    | some a => some a
    | none => scanFirst f cs

/-- JS `String.prototype.trim`: strip leading and trailing whitespace
(the same whitespace class as `isWs`). -/
def trimJs (s : String) : String :=
  String.mk (skipWs (skipWs s.toList).reverse).reverse

/-- Position matcher for `(\d+)%\s*off` (case-insensitive), the discount
regex of `server.mjs` line 136; returns the captured integer. -/
def discountAt (cs : List Char) : Option Nat :=
  let d := takeRun isDigitCh cs
  if d.1.isEmpty then none
  else
    match d.2 with
    | '%' :: r2 =>
      match matchLit ['o', 'f', 'f'] (skipWs r2) with
      | some _ => some (digitsToNat d.1)
      | none => none
    | _ => none

/-- Discount-percentage extractor: `priceText.match(/(\d+)%\s*off/i)`
followed by `parseInt` on the capture (lines 136-139). -/
def extractDiscountPct (t : String) : Option Nat :=
  scanFirst discountAt t.toList

/-- The character class `[\d.]` of the fee and rating regexes. -/
def numDotClass (c : Char) : Bool :=
  isDigitCh c || c = '.'

/-- Position matcher for `AED\s*([\d.]+)\s*delivery` (case-insensitive),
the first fee regex of line 143; returns the capture. -/
def feeAt1 (cs : List Char) : Option (List Char) := do
  let r1 ← matchLit ['a', 'e', 'd'] cs
  let cap := takeRun numDotClass (skipWs r1)
  if cap.1.isEmpty then none
  else do
    let _ ← matchLit ['d', 'e', 'l', 'i', 'v', 'e', 'r', 'y'] (skipWs cap.2)
    some cap.1

/-- Position matcher for `delivery\s*[:-]?\s*AED\s*([\d.]+)`
(case-insensitive), the second fee regex of line 144; returns the
capture.  The optional `[:-]?` never needs backtracking because the
following `\s*AED` cannot start with `:` or `-`. -/
def feeAt2 (cs : List Char) : Option (List Char) := do
  let r1 ← matchLit ['d', 'e', 'l', 'i', 'v', 'e', 'r', 'y'] cs
  let r2 := skipWs r1
  let r3 :=
    match r2 with
    | ':' :: rest => rest
    | '-' :: rest => rest
    | other => other
  let r5 ← matchLit ['a', 'e', 'd'] (skipWs r3)
  let cap := takeRun numDotClass (skipWs r5)
  if cap.1.isEmpty then none else some cap.1

/-- Position matcher for `free\s*delivery` (case-insensitive), the
free-delivery test of line 147. -/
def freeAt (cs : List Char) : Option Unit := do
  let r1 ← matchLit ['f', 'r', 'e', 'e'] cs
  let _ ← matchLit ['d', 'e', 'l', 'i', 'v', 'e', 'r', 'y'] (skipWs r1)
  some ()

/-- JS `parseFloat` restricted to captures of `[\d.]+`: an optional run
of integer digits, an optional dot, then fraction digits; anything after
a second dot is ignored.  A capture consisting only of dots gives `NaN`,
modelled here as `none`. -/
def parseFloatCap (cs : List Char) : Option ℚ :=
  let ip := takeRun isDigitCh cs
  match ip.2 with
  | '.' :: r2 =>
    let fp := takeRun isDigitCh r2
    if ip.1.isEmpty && fp.1.isEmpty then none
    else
      some (mkRat (digitsToNat ip.1 * 10 ^ fp.1.length + digitsToNat fp.1) (10 ^ fp.1.length))
  | _ => if ip.1.isEmpty then none else some (digitsToNat ip.1 : ℚ)

/-- Delivery-fee extractor (lines 142-149): first fee regex, else second
fee regex, else fee 0 on a `free delivery` phrase, else absent. -/
def extractDeliveryFee (t : String) : Option ℚ :=
  match scanFirst feeAt1 t.toList with
  | some cap => parseFloatCap cap
  | none =>
    match scanFirst feeAt2 t.toList with
    | some cap => parseFloatCap cap
    | none =>
      match scanFirst freeAt t.toList with
      | some _ => some 0
      | none => none

/-- Position matcher for `(\d+)[-–]\s*(\d+)\s*min` (case-insensitive),
the range ETA regex of line 158; returns the second capture, which is
what `parseInt(etaMatch[2] || etaMatch[1])` uses when the range
alternative matched. -/
def etaAt1 (cs : List Char) : Option Nat :=
  let d1 := takeRun isDigitCh cs
  if d1.1.isEmpty then none
  else
    match d1.2 with
    | c :: r2 =>
      if c = '-' || c = '–' then
        let d2 := takeRun isDigitCh (skipWs r2)
        if d2.1.isEmpty then none
        else
          match matchLit ['m', 'i', 'n'] (skipWs d2.2) with
          | some _ => some (digitsToNat d2.1)
          | none => none
      else none
    | [] => none

/-- Position matcher for `(\d+)\s*min` (case-insensitive), the
single-number ETA regex of line 159; returns the first capture. -/
def etaAt2 (cs : List Char) : Option Nat :=
  let d1 := takeRun isDigitCh cs
  if d1.1.isEmpty then none
  else
    match matchLit ['m', 'i', 'n'] (skipWs d1.2) with
    | some _ => some (digitsToNat d1.1)
    | none => none

/-- ETA extractor (lines 157-162): the range regex over the whole text
first, then the single-number regex. -/
def extractEtaMin (t : String) : Option Nat :=
  match scanFirst etaAt1 t.toList with
  | some n => some n
  | none => scanFirst etaAt2 t.toList

/-- Position matcher for `([\d.]+)\s*[★⭐]` (case-sensitive), the rating
regex of line 166; returns the capture. -/
def ratingAt (cs : List Char) : Option (List Char) :=
  let cap := takeRun numDotClass cs
  if cap.1.isEmpty then none
  else
    match skipWs cap.2 with
    | c :: _ => if c = '★' || c = '⭐' then some cap.1 else none
    | [] => none

/-- Rating extractor (lines 165-169): the star regex followed by
`parseFloat` on the capture. -/
def extractRating (t : String) : Option ℚ :=
  match scanFirst ratingAt t.toList with
  | some cap => parseFloatCap cap
  | none => none

/-- A DOM element as the extraction callback observes it, in document
order inside a document list.  `testid` and `className` are the
attributes consulted by the card selector of line 117; `nameText` is the
`textContent` of the first element matched by the name sub-query of
line 124 (`none` when no name element matches); `href` is the `href`
attribute of the first `a[href]` descendant of line 130 (`none` when
there is none); `text` is the element's own `textContent` (line 134),
which is a string (never null) for an element node. -/
structure DomElement where
  testid : Option String
  className : String
  nameText : Option String
  href : Option String
  text : String
deriving DecidableEq, Inhabited

/-- Sequence containment of character lists, for the CSS substring
attribute selector `[class*="restaurant"]`. -/
def startsSeq : List Char → List Char → Bool
  | [], _ => true
  | _ :: _, [] => false
  | p :: ps, c :: cs => p = c && startsSeq ps cs

/-- Occurrence of `pat` as a contiguous run inside `s`. -/
def containsSeq (pat : List Char) : List Char → Bool
  | [] => pat.isEmpty
  | c :: cs => startsSeq pat (c :: cs) || containsSeq pat cs

/-- String containment (case-sensitive), for `[class*="restaurant"]`. -/
def strContains (s pat : String) : Bool :=
  containsSeq pat.toList s.toList

/-- Selector `[data-testid="RESTAURANT_CARD"]` of line 117. -/
def matchesCardTestId (e : DomElement) : Bool :=
  e.testid = some "RESTAURANT_CARD"

/-- Split a character list into maximal whitespace-free runs, carrying
the (reversed) current token: the tokens of an HTML `class` attribute
value. -/
def splitWsAux : List Char → List Char → List String
  | [], cur => if cur.isEmpty then [] else [String.mk cur.reverse]
  | c :: cs, cur =>
    if isWs c then
      if cur.isEmpty then splitWsAux cs []
      else String.mk cur.reverse :: splitWsAux cs []
    else splitWsAux cs (c :: cur)

/-- Whitespace-separated tokens of a class attribute value. -/
def classTokens (s : String) : List String :=
  splitWsAux s.toList []

/-- Selector `.restaurant-card` of line 117: the class attribute,
split into whitespace-separated tokens, contains `restaurant-card`. -/
def matchesCardClassTok (e : DomElement) : Bool :=
  (classTokens e.className).contains "restaurant-card"

/-- Selector `[class*="restaurant"]` of line 117: the class attribute
value contains `restaurant` as a substring. -/
def matchesCardSub (e : DomElement) : Bool :=
  strContains e.className "restaurant"

/-- The comma-joined selector list of line 117: an element is selected
when it matches any of the three selectors. -/
def matchesCardSel (e : DomElement) : Bool :=
  matchesCardTestId e || matchesCardClassTok e || matchesCardSub e

/-- Card locator: `document.querySelectorAll` with the selector list of
line 117 returns, in document order and without repetition, every
element matching at least one of the listed selectors. -/
def cardLocator (doc : List DomElement) : List DomElement :=
  doc.filter matchesCardSel

/-- Modelled from the spec's words, for comparison with `cardLocator`:
try the three selector strategies in priority order and return the
matches of the first strategy that yields at least one element. -/
def cardLocatorFirstNonEmpty (doc : List DomElement) : List DomElement :=
  let s1 := doc.filter matchesCardTestId
  if s1.isEmpty then
    let s2 := doc.filter matchesCardClassTok
    if s2.isEmpty then doc.filter matchesCardSub else s2
  else s1

/-- One record of the `results` array: the fields of the object literal
pushed at lines 171-181, with JS `null` as `none`.  `base_price` and
`discounted_price` are always the literal `null` in the source
(lines 174-175); `discount_pct` and `eta_min` come from `parseInt` on
digit captures, `delivery_fee` and `rating` from `parseFloat`. -/
structure ListingRecord where
  platform : String
  restaurant : String
  base_price : Option ℚ
  discounted_price : Option ℚ
  discount_pct : Option Nat
  delivery_fee : Option ℚ
  eta_min : Option Nat
  rating : Option ℚ
  link : Option String
deriving DecidableEq, Inhabited

/-- Field names of the record object literal pushed at lines 171-181 of
`server.mjs`, in source order. -/
def pushedRecordFields : List String :=
  ["platform", "restaurant", "base_price", "discounted_price", "discount_pct",
   "delivery_fee", "eta_min", "rating", "link"]

/-- Origin prefixed to extracted hrefs at line 131. -/
def talabatOrigin : String :=
  "https://www.talabat.com"

/-- The skip condition of line 152:
`deliveryFee !== null && deliveryFee > maxFee`. -/
def feeExceedsCap (maxFee : ℚ) : Option ℚ → Bool
  | none => false
  | some f => decide (maxFee < f)

/-- Record builder for one card (lines 121-181): trim the name text and
skip the card when it is missing or empty (line 127); build the link by
unconditionally prefixing the origin to the href when one exists
(line 131); run the extractors over the card text; skip the card when
the extracted delivery fee is present and exceeds the cap (line 152);
otherwise assemble the record with `base_price` and `discounted_price`
null.  The `try`/`catch` around the card body is dead in this model:
every step is total.  Returns `none` exactly when the card is skipped. -/
def buildRecord (maxFee : ℚ) (card : DomElement) : Option ListingRecord :=
  match card.nameText.map trimJs with
  | none => none
  | some restaurant =>
    if restaurant = "" then none
    else
      let link := card.href.map (fun h => talabatOrigin ++ h)
      let discountPct := extractDiscountPct card.text
      let deliveryFee := extractDeliveryFee card.text
      if feeExceedsCap maxFee deliveryFee then none
      else
        some
          { platform := "talabat"
            restaurant := restaurant
            base_price := none
            discounted_price := none
            discount_pct := discountPct
            delivery_fee := deliveryFee
            eta_min := extractEtaMin card.text
            rating := extractRating card.text
            link := link }

/-- The card loop of lines 119-187 over the cards still to visit,
carrying the `results` accumulator: a skipped card `continue`s, a built
record is pushed, and the loop `break`s as soon as
`results.length >= maxItems` (line 183). -/
def cardLoop (maxFee : ℚ) (maxItems : Nat) : List DomElement → List ListingRecord → List ListingRecord
  | [], results => results
  | card :: rest, results =>
    match buildRecord maxFee card with
    | none => cardLoop maxFee maxItems rest results
    | some r =>
      let pushed := results ++ [r]
      if maxItems ≤ pushed.length then pushed
      else cardLoop maxFee maxItems rest pushed

/-- The extraction over a located card list: the loop of line 119 visits
indices `i < Math.min(cards.length, maxItems * 2)`, i.e. exactly the
first `min cards.length (maxItems * 2)` cards. -/
def extractItems (cards : List DomElement) (maxItems : Nat) (maxFee : ℚ) : List ListingRecord :=
  cardLoop maxFee maxItems (cards.take (min cards.length (maxItems * 2))) []

/-- The whole `page.evaluate` callback (lines 115-189): locate the cards
in the document, then run the extraction loop. -/
def scrapePage (doc : List DomElement) (maxItems : Nat) (maxFee : ℚ) : List ListingRecord :=
  extractItems (cardLocator doc) maxItems maxFee

/-- The spec's Result Filter component, i.e. the line-152 condition
stated over a list of already-built records: a record survives exactly
when the skip condition does not fire on its `delivery_fee`. -/
def resultFilter (maxFee : ℚ) (l : List ListingRecord) : List ListingRecord :=
  l.filter (fun r => !feeExceedsCap maxFee r.delivery_fee)

/-- The spec's wording of the keep condition: `delivery_fee` is absent
or at most the cap. -/
def keepSpec (maxFee : ℚ) (r : ListingRecord) : Bool :=
  match r.delivery_fee with
  | none => true
  | some f => decide (f ≤ maxFee)

/-- JS `parseInt` in base 10 on ordinary decimal strings (no `0x`
handling, which the `max` parameter never uses): skip leading
whitespace, read an optional sign and then a run of digits; `NaN`
(modelled `none`) when no digit follows. -/
def parseIntJs (s : String) : Option Int :=
  match skipWs s.toList with
  | '-' :: rest =>
    let d := takeRun isDigitCh rest
    if d.1.isEmpty then none else some (-(digitsToNat d.1 : Int))
  | '+' :: rest =>
    let d := takeRun isDigitCh rest
    if d.1.isEmpty then none else some (digitsToNat d.1 : Int)
  | rest =>
    let d := takeRun isDigitCh rest
    if d.1.isEmpty then none else some (digitsToNat d.1 : Int)

/-- Handling of the `max` query parameter: line 63 defaults it to the
number 5 when absent, and line 190 applies `parseInt` to it before
passing it to the extraction callback.  No clamping occurs anywhere. -/
def requestedMax (maxParam : Option String) : Option Int :=
  match maxParam with
  | none => some 5
  | some s => parseIntJs s

/-- Outcome of `Promise.race([scrapePromise, timeoutPromise])`
(line 217): the scrape resolved, the scrape rejected with an error
message, or the 28-second timer of lines 74-76 fired first. -/
inductive ScrapeOutcome where
  | success (items : List ListingRecord)
  | errored (msg : String)
  | timedOut
deriving DecidableEq

/-- Message carried by the rejection of `timeoutPromise` (line 75). -/
def timeoutMessage : String :=
  "Request timeout"

/-- What the handler sends back and whether a browser instance remains
open once the handler is done.  `errorKind` is the `error` field of the
JSON error body (line 232); `message` its `message` field. -/
structure HandlerResponse where
  status : Nat
  errorKind : Option String
  message : Option String
  browserOpenAfter : Bool
deriving DecidableEq

/-- The `GET /search` handler's treatment of the race outcome
(lines 217-236).  On success the scrape already closed the browser
before returning (lines 192-193) and the handler replies 200.  On a
rejection — an internal error or the timeout — the catch block closes
the browser if one had been launched (`if (browser) browser.close()`,
lines 223-229) and replies 500 with the fixed error kind
`Scraping failed` and the rejection's message (lines 231-235).
`browserOpenAtCatch` states whether a browser had been launched and was
still open when the rejection was handled. -/
def searchHandler (outcome : ScrapeOutcome) (browserOpenAtCatch : Bool) : HandlerResponse :=
  match outcome with
  | .success _ =>
    { status := 200, errorKind := none, message := none, browserOpenAfter := false }
  | .errored m =>
    { status := 500, errorKind := some "Scraping failed", message := some m,
      browserOpenAfter := if browserOpenAtCatch then false else browserOpenAtCatch }
  | .timedOut =>
    { status := 500, errorKind := some "Scraping failed", message := some timeoutMessage,
      browserOpenAfter := if browserOpenAtCatch then false else browserOpenAtCatch }

/-- A card with a valid name and no text to extract from: it always
yields a record whose optional fields are all absent. -/
def plainCard (name : String) : DomElement :=
  { testid := some "RESTAURANT_CARD", className := "restaurant-card",
    nameText := some name, href := none, text := "" }

/-- A record whose only varying field is the delivery fee, for concrete
filter examples. -/
def feeRec (fee : Option ℚ) : ListingRecord :=
  { platform := "talabat", restaurant := "R", base_price := none, discounted_price := none,
    discount_pct := none, delivery_fee := fee, eta_min := none, rating := none, link := none }

/-- An element matched only by the test-id selector of line 117. -/
def elemTestIdOnly : DomElement :=
  { testid := some "RESTAURANT_CARD", className := "", nameText := none,
    href := none, text := "" }

/-- An element matched only by the class selectors of line 117. -/
def elemClassOnly : DomElement :=
  { testid := none, className := "restaurant-card", nameText := none,
    href := none, text := "" }

/-- An element matched by none of the selectors of line 117. -/
def elemPlainDiv : DomElement :=
  { testid := none, className := "banner", nameText := some "Ad",
    href := none, text := "" }

/-- A card whose anchor href is already an absolute URL. -/
def absHrefCard : DomElement :=
  { testid := some "RESTAURANT_CARD", className := "restaurant-card",
    nameText := some "Burger Joint", href := some "https://example.com/menu", text := "" }

/-- A card whose anchor href is root-relative. -/
def relHrefCard : DomElement :=
  { testid := some "RESTAURANT_CARD", className := "restaurant-card",
    nameText := some "Shawarma House", href := some "/uae/shawarma-house", text := "" }

/-- A card whose text carries a discount phrase. -/
def discountCard : DomElement :=
  { testid := some "RESTAURANT_CARD", className := "restaurant-card",
    nameText := some "Pizza Palace", href := none, text := "20% off" }

example : extractDiscountPct "Get 20% off today" = some 20 := by decide
example : extractDeliveryFee "Free Delivery on orders" = some 0 := by decide
example : extractDeliveryFee "AED 7.5 delivery" = some (mkRat 15 2) := by decide
example : extractDeliveryFee "no fee info" = none := by decide
example : extractEtaMin "25-35 min" = some 35 := by decide
example : extractEtaMin "40 min" = some 40 := by decide
example : extractRating "4.5 ★" = some (mkRat 9 2) := by decide

example :
    buildRecord 10 (plainCard "KFC") =
      some
        { platform := "talabat", restaurant := "KFC", base_price := none,
          discounted_price := none, discount_pct := none, delivery_fee := none,
          eta_min := none, rating := none, link := none } := by
  decide

example :
    (extractItems [plainCard "KFC", plainCard "Hardees"] 5 10).length = 2 := by
  decide

example :
    buildRecord 10
      { plainCard "Nando" with text := "AED 12 delivery" } = none := by
  decide

/-- A built record has a non-empty restaurant name, null prices, the
origin-prefixed link of its card, and a delivery fee on which the
line-152 skip condition does not fire. -/
theorem buildRecord_some_spec {maxFee : ℚ} {c : DomElement} {r : ListingRecord}
    (h : buildRecord maxFee c = some r) :
    r.restaurant ≠ "" ∧ r.base_price = none ∧ r.discounted_price = none ∧
      r.link = c.href.map (fun s => talabatOrigin ++ s) ∧
      feeExceedsCap maxFee r.delivery_fee = false := by
  cases hn : c.nameText with
  | none => simp [buildRecord, hn] at h
  | some name =>
    by_cases hne : trimJs name = ""
    · simp [buildRecord, hn, hne] at h
    · cases hfc : feeExceedsCap maxFee (extractDeliveryFee c.text) with
      | true => simp [buildRecord, hn, hne, hfc] at h
      | false =>
        simp only [buildRecord, hn, Option.map_some', hne, hfc, Bool.false_eq_true,
          if_false, Option.some.injEq] at h
        subst h
        exact ⟨hne, rfl, rfl, rfl, hfc⟩

/-- Every record produced by the card loop is either carried over from
the accumulator or built from one of the remaining cards. -/
theorem cardLoop_mem {maxFee : ℚ} {maxItems : Nat} :
    ∀ {l : List DomElement} {acc : List ListingRecord} {r : ListingRecord},
      r ∈ cardLoop maxFee maxItems l acc →
      r ∈ acc ∨ ∃ c, c ∈ l ∧ buildRecord maxFee c = some r := by
  intro l
  induction l with
  | nil =>
    intro acc r h
    exact Or.inl h
  | cons c rest ih =>
    intro acc r h
    rw [cardLoop] at h
    cases hb : buildRecord maxFee c with
    | none =>
      rw [hb] at h
      rcases ih h with h' | ⟨c', hc', hbc⟩
      · exact Or.inl h'
      · exact Or.inr ⟨c', List.mem_cons_of_mem _ hc', hbc⟩
    | some r0 =>
      rw [hb] at h
      simp only at h
      split at h
      · rcases List.mem_append.mp h with h' | h'
        · exact Or.inl h'
        · have hr0 : r = r0 := by simpa using h'
          exact Or.inr ⟨c, List.mem_cons_self c rest, hr0 ▸ hb⟩
      · rcases ih h with h' | ⟨c', hc', hbc⟩
        · rcases List.mem_append.mp h' with h'' | h''
          · exact Or.inl h''
          · have hr0 : r = r0 := by simpa using h''
            exact Or.inr ⟨c, List.mem_cons_self c rest, hr0 ▸ hb⟩
        · exact Or.inr ⟨c', List.mem_cons_of_mem _ hc', hbc⟩

/-- The card loop never grows the result list past `maxItems` when it
starts below it. -/
theorem cardLoop_length_le {maxFee : ℚ} {maxItems : Nat} :
    ∀ {l : List DomElement} {acc : List ListingRecord},
      acc.length < maxItems → (cardLoop maxFee maxItems l acc).length ≤ maxItems := by
  intro l
  induction l with
  | nil =>
    intro acc hacc
    rw [cardLoop]
    exact Nat.le_of_lt hacc
  | cons c rest ih =>
    intro acc hacc
    rw [cardLoop]
    cases hb : buildRecord maxFee c with
    | none =>
      simp only [hb]
      exact ih hacc
    | some r0 =>
      simp only [hb]
      by_cases hstop : maxItems ≤ (acc ++ [r0]).length
      · rw [if_pos hstop]
        rw [List.length_append, List.length_singleton] at hstop ⊢
        omega
      · rw [if_neg hstop]
        refine ih ?_
        rw [List.length_append, List.length_singleton] at hstop
        rw [List.length_append, List.length_singleton]
        omega

/-- When every visited card yields a record, the loop's final length is
the minimum of the cap and the number of cards available. -/
theorem cardLoop_length_all_valid {maxFee : ℚ} {maxItems : Nat} :
    ∀ {l : List DomElement} {acc : List ListingRecord},
      (∀ c ∈ l, (buildRecord maxFee c).isSome) → acc.length < maxItems →
      (cardLoop maxFee maxItems l acc).length = min maxItems (acc.length + l.length) := by
  intro l
  induction l with
  | nil =>
    intro acc _ hacc
    rw [cardLoop]
    simp only [List.length_nil, Nat.add_zero]
    omega
  | cons c rest ih =>
    intro acc hv hacc
    rw [cardLoop]
    cases hb : buildRecord maxFee c with
    | none => exact absurd (hv c (List.mem_cons_self c rest)) (by simp [hb])
    | some r0 =>
      simp only [hb]
      by_cases hstop : maxItems ≤ (acc ++ [r0]).length
      · rw [if_pos hstop]
        rw [List.length_append, List.length_singleton] at hstop ⊢
        rw [List.length_cons]
        omega
      · rw [if_neg hstop]
        have hv' : ∀ c' ∈ rest, (buildRecord maxFee c').isSome :=
          fun c' hc' => hv c' (List.mem_cons_of_mem _ hc')
        have hlt : (acc ++ [r0]).length < maxItems := by
          rw [List.length_append, List.length_singleton]
          rw [List.length_append, List.length_singleton] at hstop
          omega
        rw [ih hv' hlt]
        rw [List.length_append, List.length_singleton, List.length_cons]
        omega

/-- The extraction never returns more than `maxItems` records. -/
theorem extractItems_length_le (cards : List DomElement) (maxItems : Nat) (maxFee : ℚ) :
    (extractItems cards maxItems maxFee).length ≤ maxItems := by
  cases maxItems with
  | zero => simp [extractItems, cardLoop]
  | succ n => exact cardLoop_length_le (by simp)

/-- C1: for every sequence of listing records and every fee cap, the
result filter returns exactly the order-preserving subsequence of
records whose `delivery_fee` is absent or at most the cap; with a cap of
10 and records whose fees are 5, 12, 0 and absent, the output retains
the records with fees 5, 0 and absent, in that order, and drops the
record with fee 12. -/
theorem talabat_result_filter_matches_spec :
    (∀ (cap : ℚ) (l : List ListingRecord),
        resultFilter cap l = l.filter (keepSpec cap) ∧
          List.Sublist (resultFilter cap l) l) ∧
      resultFilter 10 [feeRec (some 5), feeRec (some 12), feeRec (some 0), feeRec none] =
        [feeRec (some 5), feeRec (some 0), feeRec none] := by
  constructor
  · intro cap l
    refine ⟨?_, List.filter_sublist l⟩
    unfold resultFilter
    apply List.filter_congr
    intro r _
    cases hf : r.delivery_fee with
    | none => simp [feeExceedsCap, keepSpec, hf]
    | some f => simp [feeExceedsCap, keepSpec, hf, ← decide_not, not_lt]
  · decide

/-- C2: every record in the final output of the extraction callback has
a non-empty restaurant field, for every page content. -/
theorem talabat_output_restaurant_nonempty
    (doc : List DomElement) (maxItems : Nat) (maxFee : ℚ) (r : ListingRecord)
    (hr : r ∈ scrapePage doc maxItems maxFee) : r.restaurant ≠ "" := by
  rcases cardLoop_mem hr with h | ⟨c, _, hb⟩
  · simp at h
  · exact (buildRecord_some_spec hb).1

/-- Witness for C2 at a concrete one-card page. -/
theorem talabat_output_restaurant_nonempty_witness :
    (scrapePage [plainCard "KFC"] 5 10).headI ∈ scrapePage [plainCard "KFC"] 5 10 ∧
      (scrapePage [plainCard "KFC"] 5 10).headI.restaurant ≠ "" :=
  ⟨by decide, talabat_output_restaurant_nonempty [plainCard "KFC"] 5 10 _ (by decide)⟩

/-- C3 counterexample: on a document holding one element matched only by
the test-id selector and one matched only by a class selector, the
line-117 locator returns both elements, while a first-non-empty-strategy
locator would return only the first; so the locator does not return the
matches of the first strategy that yields at least one element. -/
theorem talabat_card_locator_not_first_strategy :
    cardLocator [elemTestIdOnly, elemClassOnly] = [elemTestIdOnly, elemClassOnly] ∧
      cardLocatorFirstNonEmpty [elemTestIdOnly, elemClassOnly] = [elemTestIdOnly] ∧
      cardLocator [elemTestIdOnly, elemClassOnly] ≠
        cardLocatorFirstNonEmpty [elemTestIdOnly, elemClassOnly] := by
  decide

/-- C3 amended: the card locator returns, in document order and with no
element repeated, every element matching any of the three selectors of
line 117 — the union of the strategies, not the first non-empty one.
When no element matches the test-id strategy, the result is exactly the
elements matched by the fallback class strategies; in particular a
document with four fallback-matched elements among non-matching ones
yields exactly those four. -/
theorem talabat_card_locator_union (doc : List DomElement)
    (hnone : ∀ e ∈ doc, matchesCardTestId e = false) :
    cardLocator doc =
        doc.filter (fun e => matchesCardClassTok e || matchesCardSub e) ∧
      List.Sublist (cardLocator doc) doc ∧
      cardLocator
          [elemPlainDiv, elemClassOnly, elemClassOnly, elemPlainDiv, elemClassOnly,
            elemClassOnly] =
        [elemClassOnly, elemClassOnly, elemClassOnly, elemClassOnly] := by
  refine ⟨?_, List.filter_sublist doc, by decide⟩
  apply List.filter_congr
  intro e he
  simp [matchesCardSel, hnone e he]

/-- Witness for C3 amended on a concrete document with no test-id
matches. -/
theorem talabat_card_locator_union_witness :
    cardLocator [elemClassOnly, elemPlainDiv] =
        [elemClassOnly, elemPlainDiv].filter
          (fun e => matchesCardClassTok e || matchesCardSub e) ∧
      List.Sublist (cardLocator [elemClassOnly, elemPlainDiv])
        [elemClassOnly, elemPlainDiv] ∧
      cardLocator
          [elemPlainDiv, elemClassOnly, elemClassOnly, elemPlainDiv, elemClassOnly,
            elemClassOnly] =
        [elemClassOnly, elemClassOnly, elemClassOnly, elemClassOnly] :=
  talabat_card_locator_union [elemClassOnly, elemPlainDiv] (by decide)

/-- C4 counterexample: a card whose anchor href is already an absolute
URL is stored with the origin prefixed anyway, not without it. -/
theorem talabat_link_prefixes_absolute_href :
    (scrapePage [absHrefCard] 5 10).headI.link =
        some "https://www.talabat.comhttps://example.com/menu" ∧
      (scrapePage [absHrefCard] 5 10).headI.link ≠ some "https://example.com/menu" := by
  decide

/-- C4 amended: for every card that produces a record, the record's link
is the site's origin unconditionally concatenated with the card's anchor
href (absent when the card has no href) — root-relative and absolute
hrefs alike receive the prefix. -/
theorem talabat_link_unconditional_prefix
    (doc : List DomElement) (maxItems : Nat) (maxFee : ℚ) (r : ListingRecord)
    (hr : r ∈ scrapePage doc maxItems maxFee) :
    ∃ c, c ∈ doc ∧ buildRecord maxFee c = some r ∧
      r.link = c.href.map (fun h => talabatOrigin ++ h) := by
  rcases cardLoop_mem hr with h | ⟨c, hc, hb⟩
  · simp at h
  · refine ⟨c, ?_, hb, (buildRecord_some_spec hb).2.2.2.1⟩
    exact List.mem_of_mem_filter (List.take_subset _ _ hc)

/-- Witness for C4 amended at a concrete card with a root-relative
href. -/
theorem talabat_link_unconditional_prefix_witness :
    ∃ c, c ∈ [relHrefCard] ∧
      buildRecord 10 c = some ((scrapePage [relHrefCard] 5 10).headI) ∧
      (scrapePage [relHrefCard] 5 10).headI.link =
        c.href.map (fun h => talabatOrigin ++ h) :=
  talabat_link_unconditional_prefix [relHrefCard] 5 10 _ (by decide)

/-- C5: with `max = 3` and a page of 10 cards that all yield a record,
the extraction returns exactly 3 records — the hard stop of line 183. -/
theorem talabat_max_hard_stop
    (cards : List DomElement) (maxFee : ℚ)
    (hlen : cards.length = 10)
    (hvalid : ∀ c ∈ cards, (buildRecord maxFee c).isSome) :
    (extractItems cards 3 maxFee).length = 3 := by
  unfold extractItems
  have hv' : ∀ c ∈ cards.take (min cards.length (3 * 2)), (buildRecord maxFee c).isSome :=
    fun c hc => hvalid c (List.take_subset _ _ hc)
  rw [cardLoop_length_all_valid hv' (by simp)]
  rw [List.length_take, hlen]
  simp

/-- Witness for C5 on ten concrete valid cards. -/
theorem talabat_max_hard_stop_witness :
    (extractItems (List.replicate 10 (plainCard "KFC")) 3 10).length = 3 :=
  talabat_max_hard_stop (List.replicate 10 (plainCard "KFC")) 10 (by simp)
    (fun c hc => by rw [List.eq_of_mem_replicate hc]; decide)

/-- C6 counterexample: the object pushed into `results` at lines 171-181
has no `last_seen` field, so no output record carries a `last_seen`
timestamp. -/
theorem talabat_no_last_seen_field :
    "last_seen" ∉ pushedRecordFields := by
  decide

/-- C6 amended: the record assembled at extraction time carries exactly
the nine fields platform, restaurant, base_price, discounted_price,
discount_pct, delivery_fee, eta_min, rating and link, and no `last_seen`
timestamp field. -/
theorem talabat_record_fields_exact :
    pushedRecordFields.length = 9 ∧
      pushedRecordFields =
        ["platform", "restaurant", "base_price", "discounted_price", "discount_pct",
          "delivery_fee", "eta_min", "rating", "link"] ∧
      "last_seen" ∉ pushedRecordFields := by
  decide

/-- C7 counterexample: the `max` parameter is not clamped — a supplied
`max=1000` is parsed to 1000 and a page of 60 valid cards then yields 60
records, exceeding the claimed upper bound of 50. -/
theorem talabat_max_not_clamped :
    requestedMax (some "1000") = some 1000 ∧
      (extractItems (List.replicate 60 (plainCard "KFC")) 1000 10).length = 60 ∧
      ¬(60 ≤ 50) := by
  refine ⟨by decide, ?_, by omega⟩
  unfold extractItems
  have hv' : ∀ c ∈ (List.replicate 60 (plainCard "KFC")).take
      (min (List.replicate 60 (plainCard "KFC")).length (1000 * 2)),
      (buildRecord 10 c).isSome := by
    intro c hc
    rw [List.eq_of_mem_replicate (List.take_subset _ _ hc)]
    decide
  rw [cardLoop_length_all_valid hv' (by simp)]
  simp

/-- C7 amended: `max` is parsed with `parseInt` (default 5 when absent)
and used without clamping; the number of returned items is bounded by
the parsed `max` itself, not by any fixed range such as 1-50. -/
theorem talabat_max_unclamped_bound :
    (∀ (cards : List DomElement) (maxItems : Nat) (maxFee : ℚ),
        (extractItems cards maxItems maxFee).length ≤ maxItems) ∧
      requestedMax none = some 5 ∧ requestedMax (some "7") = some 7 :=
  ⟨extractItems_length_le, by decide, by decide⟩

/-- C8: the result filter is idempotent — filtering an already-filtered
list with the same cap yields the same list — and order-preserving. -/
theorem talabat_result_filter_idempotent :
    ∀ (cap : ℚ) (l : List ListingRecord),
      resultFilter cap (resultFilter cap l) = resultFilter cap l ∧
        List.Sublist (resultFilter cap l) l := by
  intro cap l
  refine ⟨?_, List.filter_sublist l⟩
  unfold resultFilter
  rw [List.filter_filter]
  apply List.filter_congr
  intro r _
  rw [Bool.and_self]

/-- C9 counterexample: the timeout branch of the race answers with the
same generic error kind `Scraping failed` as an internal error does, not
with a distinct `DeadlineExceeded` typed error; the two are told apart
only by the message string. -/
theorem talabat_timeout_error_untyped :
    (searchHandler .timedOut true).errorKind = some "Scraping failed" ∧
      (searchHandler (.errored "boom") true).errorKind = some "Scraping failed" ∧
      (searchHandler .timedOut true).errorKind ≠ some "DeadlineExceeded" := by
  decide

/-- C9 amended: a scrape that exceeds the 28-second deadline is answered
with HTTP 500, the generic error kind `Scraping failed` and the message
`Request timeout` — not a distinct `DeadlineExceeded` kind — and on this
exit path, as on the internal-error and success paths, no browser that
was open when the outcome was handled remains open afterwards. -/
theorem talabat_timeout_response_and_cleanup :
    ∀ (outcome : ScrapeOutcome) (b : Bool),
      (searchHandler outcome b).browserOpenAfter = false ∧
        searchHandler .timedOut b =
          { status := 500, errorKind := some "Scraping failed",
            message := some timeoutMessage, browserOpenAfter := false } := by
  intro outcome b
  constructor
  · cases outcome <;> cases b <;> rfl
  · cases b <;> rfl

/-- C10: every record in the output has `base_price` and
`discounted_price` absent, for every page content and every input. -/
theorem talabat_prices_always_null
    (doc : List DomElement) (maxItems : Nat) (maxFee : ℚ) (r : ListingRecord)
    (hr : r ∈ scrapePage doc maxItems maxFee) :
    r.base_price = none ∧ r.discounted_price = none := by
  rcases cardLoop_mem hr with h | ⟨c, _, hb⟩
  · simp at h
  · exact ⟨(buildRecord_some_spec hb).2.1, (buildRecord_some_spec hb).2.2.1⟩

/-- Witness for C10 at a concrete card whose text carries a discount
percentage: the discount is extracted, yet both prices stay absent. -/
theorem talabat_prices_always_null_witness :
    (scrapePage [discountCard] 5 10).headI.discount_pct = some 20 ∧
      ((scrapePage [discountCard] 5 10).headI.base_price = none ∧
        (scrapePage [discountCard] 5 10).headI.discounted_price = none) :=
  ⟨by decide, talabat_prices_always_null [discountCard] 5 10 _ (by decide)⟩

end Talabat
